import Mathlib

/-
Verification of the heart-disease-prediction Flask application (src/app.py)
against its natural-language specification.

Shallow embedding conventions:
  * machine integers of the Python code become Int;
  * Python floats (the st_depression input and the classifier probability)
    become Rat, with Python round-half-to-even modelled exactly;
  * fallible Python operations (form field lookup, int()/float() parsing,
    the external predict_proba call) become Option/Except values, and the
    single try/except of the predict route becomes a total function that
    turns every error into the error-flash response;
  * side effects (the scaler call, the inference call, the ORM insert and
    commit, artifact deserialization) are logged as an explicit event list
    so that claims about which calls happen, and how often, are statable.
-/

namespace HeartPred

/-- Raw values parsed from the nine form fields of the predict route
(src/app.py lines 94-103), together with the patient name. -/
structure RawInputs where
  patient_name : String
  age : Int
  sex : Int
  chest_pain_type : Int
  max_heart_rate_achieved : Int
  exercise_induced_angina : Int
  st_depression : Rat
  st_slope : Int
  num_major_vessels : Int
  thalassemia : Int
  deriving Repr, DecidableEq

/-- An HTTP form: an association list from field names to raw string
values, as Flask presents request.form. -/
structure Form where
  fields : List (String × String)
  deriving Repr, DecidableEq

/-- Lookup of a form field, mirroring request.form.get: the first value
bound to the key, if any. -/
def Form.get (f : Form) (k : String) : Option String :=
  (f.fields.find? (fun p => p.1 = k)).map Prod.snd

/-- Numeric value of a list of decimal digit characters, most significant
first (validity of the digits is checked by the callers). -/
def digitsToNat (cs : List Char) : Nat :=
  cs.foldl (fun a c => a * 10 + (c.toNat - 48)) 0

/-- Characters stripped by Python int()/float() around a numeric literal. -/
def isPySpace (c : Char) : Bool :=
  c = ' ' || c = '\t' || c = '\n' || c = '\r'

/-- Leading and trailing whitespace removed from a character list. -/
def stripSpaces (cs : List Char) : List Char :=
  ((cs.dropWhile isPySpace).reverse.dropWhile isPySpace).reverse

/-- Embedding of the Python int(str) conversion used on the form fields:
optional sign followed by a nonempty run of decimal digits, surrounding
whitespace ignored; anything else raises, modelled as none. -/
def pyInt? (s : String) : Option Int :=
  let cs := stripSpaces s.toList
  let sd : Int × List Char :=
    match cs with
    | '-' :: rest => (-1, rest)
    | '+' :: rest => (1, rest)
    | _ => (1, cs)
  if sd.2.isEmpty then none
  else if sd.2.all Char.isDigit then some (sd.1 * (digitsToNat sd.2 : Int))
  else none

/-- Embedding of the Python float(str) conversion used on st_depression:
optional sign, an integer part and an optional fractional part after a
dot, at least one digit overall; anything else raises, modelled as none. -/
def pyFloat? (s : String) : Option Rat :=
  let cs := stripSpaces s.toList
  let sd : Rat × List Char :=
    match cs with
    | '-' :: rest => (-1, rest)
    | '+' :: rest => (1, rest)
    | _ => (1, cs)
  let intDigits := sd.2.takeWhile Char.isDigit
  let rest := sd.2.dropWhile Char.isDigit
  match rest with
  | [] =>
      if intDigits.isEmpty then none
      else some (sd.1 * (digitsToNat intDigits : Rat))
  | '.' :: fracDigits =>
      if fracDigits.all Char.isDigit && !(intDigits.isEmpty && fracDigits.isEmpty) then
        some (sd.1 * ((digitsToNat intDigits : Rat) +
          (digitsToNat fracDigits : Rat) / (10 : Rat) ^ fracDigits.length))
      else none
  | _ => none

/-- Reading an integer form field, as the Python
int(request.form[k]): a missing key raises KeyError and a non-numeric
value raises ValueError, both modelled as Except.error. -/
def getIntField (f : Form) (k : String) : Except String Int :=
  match f.get k with
  | none => Except.error ("KeyError " ++ k)
  | some v =>
      match pyInt? v with
      | none => Except.error ("invalid literal for int with base 10: " ++ v)
      | some n => Except.ok n

/-- Reading a float form field, as the Python float(request.form[k]). -/
def getFloatField (f : Form) (k : String) : Except String Rat :=
  match f.get k with
  | none => Except.error ("KeyError " ++ k)
  | some v =>
      match pyFloat? v with
      | none => Except.error ("could not convert string to float: " ++ v)
      | some x => Except.ok x

/-- Step 1 of the predict route (src/app.py lines 94-103): the nine raw
inputs are read from the form in source order; the patient name defaults
to Anonymous when absent or empty (the Python or-with-default). -/
def parseForm (f : Form) : Except String RawInputs := do
  let patient_name :=
    match f.get "patient_name" with
    | some s => if s = "" then "Anonymous" else s
    | none => "Anonymous"
  let age ← getIntField f "age"
  let sex ← getIntField f "sex"
  let chest_pain_type ← getIntField f "chest_pain_type"
  let max_heart_rate_achieved ← getIntField f "max_heart_rate_achieved"
  let exercise_induced_angina ← getIntField f "exercise_induced_angina"
  let st_depression ← getFloatField f "st_depression"
  let st_slope ← getIntField f "st_slope"
  let num_major_vessels ← getIntField f "num_major_vessels"
  let thalassemia ← getIntField f "thalassemia"
  pure { patient_name := patient_name, age := age, sex := sex,
         chest_pain_type := chest_pain_type,
         max_heart_rate_achieved := max_heart_rate_achieved,
         exercise_induced_angina := exercise_induced_angina,
         st_depression := st_depression, st_slope := st_slope,
         num_major_vessels := num_major_vessels, thalassemia := thalassemia }

/-- One-hot flag f_cp_atypical of src/app.py line 111. -/
def f_cp_atypical (chest_pain_type : Int) : Rat :=
  if chest_pain_type = 1 then 1 else 0

/-- One-hot flag f_cp_non_anginal of src/app.py line 112. -/
def f_cp_non_anginal (chest_pain_type : Int) : Rat :=
  if chest_pain_type = 2 then 1 else 0

/-- One-hot flag f_cp_typical of src/app.py line 113. -/
def f_cp_typical (chest_pain_type : Int) : Rat :=
  if chest_pain_type = 0 then 1 else 0

/-- One-hot flag f_slope_flat of src/app.py line 114. -/
def f_slope_flat (st_slope : Int) : Rat :=
  if st_slope = 1 then 1 else 0

/-- One-hot flag f_slope_upsloping of src/app.py line 115. -/
def f_slope_upsloping (st_slope : Int) : Rat :=
  if st_slope = 0 then 1 else 0

/-- One-hot flag f_thal_normal of src/app.py line 116. -/
def f_thal_normal (thalassemia : Int) : Rat :=
  if thalassemia = 2 then 1 else 0

/-- One-hot flag f_thal_reversible of src/app.py line 117. -/
def f_thal_reversible (thalassemia : Int) : Rat :=
  if thalassemia = 3 then 1 else 0

/-- One-hot flag f_sex_male of src/app.py line 118. -/
def f_sex_male (sex : Int) : Rat :=
  if sex = 1 then 1 else 0

/-- One-hot flag f_exang_yes of src/app.py line 119. -/
def f_exang_yes (exercise_induced_angina : Int) : Rat :=
  if exercise_induced_angina = 1 then 1 else 0

/-- Steps 2-3 of the predict route (src/app.py lines 107-127): the
13-element feature list, in source order. -/
def encodeFeatures (i : RawInputs) : List Rat :=
  [(i.age : Rat), (i.max_heart_rate_achieved : Rat), i.st_depression,
   (i.num_major_vessels : Rat),
   f_cp_atypical i.chest_pain_type, f_cp_non_anginal i.chest_pain_type,
   f_cp_typical i.chest_pain_type, f_slope_flat i.st_slope,
   f_slope_upsloping i.st_slope, f_thal_normal i.thalassemia,
   f_thal_reversible i.thalassemia, f_sex_male i.sex,
   f_exang_yes i.exercise_induced_angina]

/-- Python round with no digits argument: nearest integer, ties to the
even neighbour (banker rounding), as applied at src/app.py line 140. -/
def pyRound (x : Rat) : Int :=
  if x - (⌊x⌋ : Rat) < 1 / 2 then ⌊x⌋
  else if 1 / 2 < x - (⌊x⌋ : Rat) then ⌊x⌋ + 1
  else if ⌊x⌋ % 2 = 0 then ⌊x⌋ else ⌊x⌋ + 1

/-- Risk score of src/app.py line 140: int(round(prob * 100)). -/
def riskScore (prob : Rat) : Int :=
  pyRound (prob * 100)

/-- Risk level of src/app.py lines 143-154: the threshold chain on the
risk score. -/
def riskLevel (risk_score : Int) : String :=
  if risk_score > 75 then "Very High Risk"
  else if risk_score > 50 then "High Risk"
  else if risk_score > 25 then "Moderate Risk"
  else "Low Risk"

/-- CSS class set alongside the risk level in the same chain
(src/app.py lines 143-154). -/
def riskClassOf (risk_score : Int) : String :=
  if risk_score > 75 then "level-very-high"
  else if risk_score > 50 then "level-high"
  else if risk_score > 25 then "level-moderate"
  else "level-low"

/-- Display-string map for chest pain type (src/app.py lines 187-192):
dict.get with default N/A. -/
def cpStr (chest_pain_type : Int) : String :=
  if chest_pain_type = 0 then "Typical Angina"
  else if chest_pain_type = 1 then "Atypical Angina"
  else if chest_pain_type = 2 then "Non-anginal Pain"
  else if chest_pain_type = 3 then "Asymptomatic"
  else "N/A"

/-- Display-string map for ST slope (src/app.py lines 194-198). -/
def slopeStr (st_slope : Int) : String :=
  if st_slope = 0 then "Upsloping"
  else if st_slope = 1 then "Flat"
  else if st_slope = 2 then "Downsloping"
  else "N/A"

/-- Display-string map for thalassemia (src/app.py lines 200-204). -/
def thalStr (thalassemia : Int) : String :=
  if thalassemia = 1 then "Fixed Defect"
  else if thalassemia = 2 then "Normal"
  else if thalassemia = 3 then "Reversible Defect"
  else "N/A"

/-- Row of the Prediction table (src/app.py lines 51-69), without the
database-generated id and timestamp columns. -/
structure PredictionRec where
  patient_name : String
  age : Int
  sex : Int
  chest_pain_type : Int
  max_heart_rate_achieved : Int
  exercise_induced_angina : Int
  st_depression : Rat
  st_slope : Int
  num_major_vessels : Int
  thalassemia : Int
  risk_score : Int
  risk_level : String
  deriving Repr, DecidableEq

/-- Result dictionary rendered into predict.html on success
(src/app.py lines 176-205). -/
structure ResultDict where
  name : String
  score : Int
  level : String
  risk_class : String
  age : Int
  sex_str : String
  max_heart_rate_achieved : Int
  st_depression : Rat
  num_major_vessels : Int
  exercise_induced_angina_str : String
  chest_pain_type_str : String
  st_slope_str : String
  thalassemia_str : String
  deriving Repr, DecidableEq

/-- The Prediction row built at src/app.py lines 157-170: the nine raw
inputs plus the computed score and level. -/
def mkRecord (i : RawInputs) (score : Int) (level : String) : PredictionRec :=
  { patient_name := i.patient_name, age := i.age, sex := i.sex,
    chest_pain_type := i.chest_pain_type,
    max_heart_rate_achieved := i.max_heart_rate_achieved,
    exercise_induced_angina := i.exercise_induced_angina,
    st_depression := i.st_depression, st_slope := i.st_slope,
    num_major_vessels := i.num_major_vessels, thalassemia := i.thalassemia,
    risk_score := score, risk_level := level }

/-- The result dictionary built at src/app.py lines 176-205. -/
def mkResult (i : RawInputs) (score : Int) (level rclass : String) : ResultDict :=
  { name := i.patient_name, score := score, level := level,
    risk_class := rclass, age := i.age,
    sex_str := if i.sex = 1 then "Male" else "Female",
    max_heart_rate_achieved := i.max_heart_rate_achieved,
    st_depression := i.st_depression,
    num_major_vessels := i.num_major_vessels,
    exercise_induced_angina_str :=
      if i.exercise_induced_angina = 1 then "Yes" else "No",
    chest_pain_type_str := cpStr i.chest_pain_type,
    st_slope_str := slopeStr i.st_slope,
    thalassemia_str := thalStr i.thalassemia }

/-- Observable side effects of the application, logged in program order:
artifact deserialization at startup, the scaler transform call, the
predict_proba inference call (with its argument vector), and the ORM
insert and commit. -/
inductive AppEvent where
  | loadModel
  | loadScaler
  | scalerCall (arg : List Rat)
  | modelCall (arg : List Rat)
  | dbInsert (row : PredictionRec)
  | dbCommit
  deriving Repr, DecidableEq

/-- True exactly on the two deserialization events. -/
def isLoad : AppEvent → Bool
  | AppEvent.loadModel => true
  | AppEvent.loadScaler => true
  | _ => false

/-- True exactly on inference calls. -/
def isModelCall : AppEvent → Bool
  | AppEvent.modelCall _ => true
  | _ => false

/-- True exactly on ORM inserts. -/
def isDbInsert : AppEvent → Bool
  | AppEvent.dbInsert _ => true
  | _ => false

/-- True exactly on ORM commits. -/
def isDbCommit : AppEvent → Bool
  | AppEvent.dbCommit => true
  | _ => false

/-- The external classifier artifact: predict_proba maps a feature vector
to a matrix of class probabilities (one row per sample), or raises. -/
abbrev PModel := List Rat → Except String (List (List Rat))

/-- The external scaler artifact: transform maps a feature vector to a
scaled feature vector. -/
abbrev PScaler := List Rat → List Rat

/-- Entry [0][1] of the predict_proba result (src/app.py line 139): the
positive-class probability of the single sample; none models the
IndexError a malformed result would raise. -/
def probAt01 (rows : List (List Rat)) : Option Rat :=
  match rows[0]? with
  | some row => row[1]?
  | none => none

/-- An HTTP response of the predict route: the rendered template, the
result dictionary handed to it (none on the form-only page), and the
flash message with its category, if any. -/
structure Response where
  page : String
  result : Option ResultDict
  flash : Option (String × String)
  deriving Repr, DecidableEq

/-- The error response of the predict route: predict.html with
result None and a danger flash. -/
def errorPage (msg : String) : Response :=
  { page := "predict.html", result := none, flash := some (msg, "danger") }

/-- Outcome of one POST to /predict: the response, the committed
Prediction table after the request, and the logged side effects. -/
structure HandlerOutput where
  response : Response
  db : List PredictionRec
  events : List AppEvent
  deriving Repr, DecidableEq

/-- The POST branch of the predict route (src/app.py lines 86-212):
the loaded-artifact guard, then inside try/except the form parse, the
one-hot encoding, the 13-feature shape check, the scaler transform, the
predict_proba call, score and level computation, the ORM insert and
commit, and the result render; every exception path lands on the error
flash with result None. -/
def handlePredictPost (mo : Option PModel) (so : Option PScaler)
    (db : List PredictionRec) (form : Form) : HandlerOutput :=
  match mo, so with
  | some m, some sc =>
    match parseForm form with
    | Except.error e =>
        { response := errorPage ("An error occurred: " ++ e),
          db := db, events := [] }
    | Except.ok inp =>
        let features := encodeFeatures inp
        if features.length ≠ 13 then
          { response := errorPage "Feature engineering error. Expected 13 features.",
            db := db, events := [] }
        else
          let scaled := sc features
          match m scaled with
          | Except.error e =>
              { response := errorPage ("An error occurred: " ++ e),
                db := db,
                events := [AppEvent.scalerCall features, AppEvent.modelCall scaled] }
          | Except.ok rows =>
            match probAt01 rows with
            | none =>
                { response := errorPage "An error occurred: list index out of range",
                  db := db,
                  events := [AppEvent.scalerCall features, AppEvent.modelCall scaled] }
            | some prob =>
              let score := riskScore prob
              let level := riskLevel score
              let rclass := riskClassOf score
              let newPrediction := mkRecord inp score level
              { response := { page := "predict.html",
                              result := some (mkResult inp score level rclass),
                              flash := none },
                db := db ++ [newPrediction],
                events := [AppEvent.scalerCall features, AppEvent.modelCall scaled,
                           AppEvent.dbInsert newPrediction, AppEvent.dbCommit] }
  | _, _ =>
      { response := errorPage "Model or Scaler is not loaded. Cannot make predictions.",
        db := db, events := [] }

/-- Contents of the artifact files on disk at startup: some when the
file exists and deserializes, none when opening it raises. -/
structure DiskState where
  model_file : Option PModel
  scaler_file : Option PScaler

/-- Startup loading of src/app.py lines 22-47: the model is
deserialized, then the scaler; a missing file aborts the try block and
resets both globals to None. The event list records each completed
deserialization. -/
def initApp (disk : DiskState) :
    Option PModel × Option PScaler × List AppEvent :=
  match disk.model_file with
  | none => (none, none, [])
  | some m =>
    match disk.scaler_file with
    | none => (none, none, [AppEvent.loadModel])
    | some sc => (some m, some sc, [AppEvent.loadModel, AppEvent.loadScaler])

/-- One request processed by the running server: the handler is applied
to the current table with the globals loaded at startup, and its events
are appended to the trace. -/
def serverStep (mo : Option PModel) (so : Option PScaler)
    (acc : List AppEvent × List PredictionRec) (form : Form) :
    List AppEvent × List PredictionRec :=
  let out := handlePredictPost mo so acc.2 form
  (acc.1 ++ out.events, out.db)

/-- A whole process run: startup loading once, then the requests in
order against the loaded globals. Returns the full event trace and the
final Prediction table. -/
def runServer (disk : DiskState) (reqs : List Form) :
    List AppEvent × List PredictionRec :=
  let s := initApp disk
  reqs.foldl (serverStep s.1 s.2.1) (s.2.2, [])

/-- Helper: pyRound never goes below the floor of its argument. -/
theorem pyRound_nonneg (x : Rat) (h : 0 ≤ x) : 0 ≤ pyRound x := by
  unfold pyRound
  have hf : (0 : Int) ≤ ⌊x⌋ := Int.floor_nonneg.mpr h
  split_ifs <;> omega

/-- Helper: pyRound of a value at most the integer n is at most n. -/
theorem pyRound_le (x : Rat) (n : Int) (h : x ≤ (n : Rat)) : pyRound x ≤ n := by
  unfold pyRound
  have hf : ⌊x⌋ ≤ n := by
    have h2 := Int.floor_le_floor h
    simpa using h2
  have hfl : (⌊x⌋ : Rat) ≤ x := Int.floor_le x
  split_ifs with h1 h2 h3
  · exact hf
  · have hlt : (⌊x⌋ : Rat) < (n : Rat) := by linarith
    have : ⌊x⌋ < n := by exact_mod_cast hlt
    omega
  · exact hf
  · push_neg at h1
    have hlt : (⌊x⌋ : Rat) < (n : Rat) := by linarith
    have : ⌊x⌋ < n := by exact_mod_cast hlt
    omega

/-- C1: for every computed risk score s in [0,100], the threshold chain of
src/app.py lines 143-154 assigns the Low bucket on [0,25], the Moderate
bucket on (25,50], the High bucket on (50,75] and the Very High bucket on
(75,100], and no string outside these four bucket labels is ever
produced (in the code the bucket labels carry the suffix " Risk"). -/
theorem riskLevel_four_buckets (s : Int) (h0 : 0 ≤ s) (h100 : s ≤ 100) :
    (s ≤ 25 → riskLevel s = "Low Risk") ∧
    (25 < s → s ≤ 50 → riskLevel s = "Moderate Risk") ∧
    (50 < s → s ≤ 75 → riskLevel s = "High Risk") ∧
    (75 < s → riskLevel s = "Very High Risk") ∧
    (riskLevel s = "Low Risk" ∨ riskLevel s = "Moderate Risk" ∨
      riskLevel s = "High Risk" ∨ riskLevel s = "Very High Risk") := by
  unfold riskLevel
  split_ifs with h1 h2 h3 <;>
    refine ⟨fun ha => ?_, fun ha hb => ?_, fun ha hb => ?_, fun ha => ?_, ?_⟩ <;>
    first
      | rfl
      | omega
      | decide

/-- Witness for C1 at the concrete score 30. -/
theorem riskLevel_four_buckets_witness :
    ((30 : Int) ≤ 25 → riskLevel 30 = "Low Risk") ∧
    (25 < (30 : Int) → (30 : Int) ≤ 50 → riskLevel 30 = "Moderate Risk") ∧
    (50 < (30 : Int) → (30 : Int) ≤ 75 → riskLevel 30 = "High Risk") ∧
    (75 < (30 : Int) → riskLevel 30 = "Very High Risk") ∧
    (riskLevel 30 = "Low Risk" ∨ riskLevel 30 = "Moderate Risk" ∨
      riskLevel 30 = "High Risk" ∨ riskLevel 30 = "Very High Risk") :=
  riskLevel_four_buckets 30 (by decide) (by decide)

/-- C2: for every positive-class probability p with 0 ≤ p ≤ 1, the risk
score of src/app.py line 140 is the Python rounding of p * 100 and is an
integer between 0 and 100 inclusive. -/
theorem riskScore_round_range (p : Rat) (h0 : 0 ≤ p) (h1 : p ≤ 1) :
    riskScore p = pyRound (p * 100) ∧ 0 ≤ riskScore p ∧ riskScore p ≤ 100 := by
  refine ⟨rfl, ?_, ?_⟩
  · exact pyRound_nonneg _ (by nlinarith)
  · exact pyRound_le (p * 100) 100 (by push_cast; nlinarith)

/-- C3: for every parsed form submission, the feature vector has exactly
13 elements in the fixed order of src/app.py lines 122-127, and each
one-hot flag follows its static rule; in particular position 4 (the CP
Atypical flag) is 1 exactly when chest_pain_type = 1. -/
theorem encodeFeatures_order (i : RawInputs) :
    (encodeFeatures i).length = 13 ∧
    (encodeFeatures i)[0]? = some (i.age : Rat) ∧
    (encodeFeatures i)[1]? = some (i.max_heart_rate_achieved : Rat) ∧
    (encodeFeatures i)[2]? = some i.st_depression ∧
    (encodeFeatures i)[3]? = some (i.num_major_vessels : Rat) ∧
    (encodeFeatures i)[4]? = some (if i.chest_pain_type = 1 then 1 else 0) ∧
    (encodeFeatures i)[5]? = some (if i.chest_pain_type = 2 then 1 else 0) ∧
    (encodeFeatures i)[6]? = some (if i.chest_pain_type = 0 then 1 else 0) ∧
    (encodeFeatures i)[7]? = some (if i.st_slope = 1 then 1 else 0) ∧
    (encodeFeatures i)[8]? = some (if i.st_slope = 0 then 1 else 0) ∧
    (encodeFeatures i)[9]? = some (if i.thalassemia = 2 then 1 else 0) ∧
    (encodeFeatures i)[10]? = some (if i.thalassemia = 3 then 1 else 0) ∧
    (encodeFeatures i)[11]? = some (if i.sex = 1 then 1 else 0) ∧
    (encodeFeatures i)[12]? = some (if i.exercise_induced_angina = 1 then 1 else 0) := by
  simp [encodeFeatures, f_cp_atypical, f_cp_non_anginal, f_cp_typical,
    f_slope_flat, f_slope_upsloping, f_thal_normal, f_thal_reversible,
    f_sex_male, f_exang_yes]

/-- C8: in every encoded feature vector each categorical group is a
dropped-baseline one-hot: at most one chest-pain flag, at most one slope
flag and at most one thalassemia flag is 1, and the baseline codes
chest_pain_type = 3, st_slope = 2 and thalassemia = 1 set every flag of
their group to 0. -/
theorem encodeFeatures_onehot_groups (i : RawInputs) :
    (((encodeFeatures i).drop 4).take 3).countP (fun x => decide (x = 1)) ≤ 1 ∧
    (((encodeFeatures i).drop 7).take 2).countP (fun x => decide (x = 1)) ≤ 1 ∧
    (((encodeFeatures i).drop 9).take 2).countP (fun x => decide (x = 1)) ≤ 1 ∧
    (i.chest_pain_type = 3 → ((encodeFeatures i).drop 4).take 3 = [0, 0, 0]) ∧
    (i.st_slope = 2 → ((encodeFeatures i).drop 7).take 2 = [0, 0]) ∧
    (i.thalassemia = 1 → ((encodeFeatures i).drop 9).take 2 = [0, 0]) := by
  have hcp : ((encodeFeatures i).drop 4).take 3 =
      [f_cp_atypical i.chest_pain_type, f_cp_non_anginal i.chest_pain_type,
       f_cp_typical i.chest_pain_type] := rfl
  have hsl : ((encodeFeatures i).drop 7).take 2 =
      [f_slope_flat i.st_slope, f_slope_upsloping i.st_slope] := rfl
  have hth : ((encodeFeatures i).drop 9).take 2 =
      [f_thal_normal i.thalassemia, f_thal_reversible i.thalassemia] := rfl
  rw [hcp, hsl, hth]
  unfold f_cp_atypical f_cp_non_anginal f_cp_typical f_slope_flat
    f_slope_upsloping f_thal_normal f_thal_reversible
  refine ⟨?_, ?_, ?_, fun h => ?_, fun h => ?_, fun h => ?_⟩ <;>
    split_ifs <;> first | omega | decide

/-- Helper: on the success path the handler output is determined by the
parsed inputs and the probability extracted from the model result. -/
theorem handle_success (m : PModel) (sc : PScaler) (db : List PredictionRec)
    (form : Form) (inp : RawInputs) (rows : List (List Rat)) (p : Rat)
    (hparse : parseForm form = Except.ok inp)
    (hm : m (sc (encodeFeatures inp)) = Except.ok rows)
    (hp : probAt01 rows = some p) :
    handlePredictPost (some m) (some sc) db form =
      { response := { page := "predict.html",
                      result := some (mkResult inp (riskScore p)
                        (riskLevel (riskScore p)) (riskClassOf (riskScore p))),
                      flash := none },
        db := db ++ [mkRecord inp (riskScore p) (riskLevel (riskScore p))],
        events := [AppEvent.scalerCall (encodeFeatures inp),
                   AppEvent.modelCall (sc (encodeFeatures inp)),
                   AppEvent.dbInsert (mkRecord inp (riskScore p) (riskLevel (riskScore p))),
                   AppEvent.dbCommit] } := by
  have hlen : (encodeFeatures inp).length = 13 := rfl
  simp [handlePredictPost, hparse, hm, hp, hlen]

/-- C4: on every successful prediction the scaler transform is applied
to the feature vector first, and exactly one inference call is made, on
the scaled vector and never on the unscaled one; entry [0][1] of its
result is the positive-class probability behind the displayed score. -/
theorem predict_scaled_single_inference (m : PModel) (sc : PScaler)
    (db : List PredictionRec) (form : Form) (inp : RawInputs)
    (rows : List (List Rat)) (p : Rat)
    (hparse : parseForm form = Except.ok inp)
    (hm : m (sc (encodeFeatures inp)) = Except.ok rows)
    (hp : probAt01 rows = some p) :
    ((handlePredictPost (some m) (some sc) db form).events.filter isModelCall) =
      [AppEvent.modelCall (sc (encodeFeatures inp))] ∧
    (handlePredictPost (some m) (some sc) db form).events =
      [AppEvent.scalerCall (encodeFeatures inp),
       AppEvent.modelCall (sc (encodeFeatures inp)),
       AppEvent.dbInsert (mkRecord inp (riskScore p) (riskLevel (riskScore p))),
       AppEvent.dbCommit] ∧
    ((handlePredictPost (some m) (some sc) db form).response.result.map
        ResultDict.score) = some (riskScore p) := by
  rw [handle_success m sc db form inp rows p hparse hm hp]
  exact ⟨rfl, rfl, rfl⟩

/-- C5: every successful POST to /predict appends exactly one committed
record to the Prediction table, and that record stores the nine raw
inputs exactly as parsed (not the encoded or scaled features), together
with the computed risk score and level. -/
theorem predict_commits_one_raw_record (m : PModel) (sc : PScaler)
    (db : List PredictionRec) (form : Form) (inp : RawInputs)
    (rows : List (List Rat)) (p : Rat)
    (hparse : parseForm form = Except.ok inp)
    (hm : m (sc (encodeFeatures inp)) = Except.ok rows)
    (hp : probAt01 rows = some p) :
    (handlePredictPost (some m) (some sc) db form).db =
      db ++ [{ patient_name := inp.patient_name, age := inp.age, sex := inp.sex,
               chest_pain_type := inp.chest_pain_type,
               max_heart_rate_achieved := inp.max_heart_rate_achieved,
               exercise_induced_angina := inp.exercise_induced_angina,
               st_depression := inp.st_depression, st_slope := inp.st_slope,
               num_major_vessels := inp.num_major_vessels,
               thalassemia := inp.thalassemia,
               risk_score := riskScore p,
               risk_level := riskLevel (riskScore p) }] ∧
    ((handlePredictPost (some m) (some sc) db form).events.filter isDbInsert).length = 1 ∧
    ((handlePredictPost (some m) (some sc) db form).events.filter isDbCommit).length = 1 := by
  rw [handle_success m sc db form inp rows p hparse hm hp]
  exact ⟨rfl, rfl, rfl⟩

/-- C6: when form parsing raises (missing field, non-numeric value) or
the inference call raises, the predict route catches the exception: it
renders predict.html with result None, an error flash built from the
exception text, leaves the table unchanged, and never propagates (the
embedded handler is a total function into responses). -/
theorem predict_catches_errors (m : PModel) (sc : PScaler)
    (db : List PredictionRec) (form1 form2 : Form) (inp : RawInputs)
    (e1 e2 : String)
    (h1 : parseForm form1 = Except.error e1)
    (h2 : parseForm form2 = Except.ok inp)
    (h3 : m (sc (encodeFeatures inp)) = Except.error e2) :
    handlePredictPost (some m) (some sc) db form1 =
      { response := errorPage ("An error occurred: " ++ e1),
        db := db, events := [] } ∧
    handlePredictPost (some m) (some sc) db form2 =
      { response := errorPage ("An error occurred: " ++ e2),
        db := db,
        events := [AppEvent.scalerCall (encodeFeatures inp),
                   AppEvent.modelCall (sc (encodeFeatures inp))] } := by
  have hlen : (encodeFeatures inp).length = 13 := rfl
  constructor
  · simp [handlePredictPost, h1]
  · simp [handlePredictPost, h2, h3, hlen]

/-- C9: a POST to /predict while the model or the scaler is not loaded
yields the form page with result None and a danger flash, makes no
inference call, and leaves the stored table unchanged. -/
theorem predict_unloaded_guard (mo : Option PModel) (so : Option PScaler)
    (db : List PredictionRec) (form : Form)
    (h : mo = none ∨ so = none) :
    handlePredictPost mo so db form =
      { response := errorPage "Model or Scaler is not loaded. Cannot make predictions.",
        db := db, events := [] } := by
  rcases h with h | h
  · subst h
    rfl
  · subst h
    cases mo <;> rfl

/-- C10: the predict route performs no range validation: any parsed
integer codes are accepted, encoded (an out-of-range categorical code
turns every flag of its group off), scored, stored raw in the table,
and displayed with N/A for an unrecognized code; num_major_vessels
passes through unchanged even when negative. -/
theorem predict_no_range_validation (m : PModel) (sc : PScaler)
    (db : List PredictionRec) (form : Form) (inp : RawInputs)
    (rows : List (List Rat)) (p : Rat)
    (hparse : parseForm form = Except.ok inp)
    (hm : m (sc (encodeFeatures inp)) = Except.ok rows)
    (hp : probAt01 rows = some p) :
    (handlePredictPost (some m) (some sc) db form).db =
      db ++ [mkRecord inp (riskScore p) (riskLevel (riskScore p))] ∧
    (mkRecord inp (riskScore p) (riskLevel (riskScore p))).chest_pain_type =
      inp.chest_pain_type ∧
    (mkRecord inp (riskScore p) (riskLevel (riskScore p))).num_major_vessels =
      inp.num_major_vessels ∧
    ((handlePredictPost (some m) (some sc) db form).response.result.map
        ResultDict.num_major_vessels) = some inp.num_major_vessels ∧
    (inp.chest_pain_type ≠ 0 → inp.chest_pain_type ≠ 1 →
     inp.chest_pain_type ≠ 2 → inp.chest_pain_type ≠ 3 →
      ((encodeFeatures inp).drop 4).take 3 = [0, 0, 0] ∧
      ((handlePredictPost (some m) (some sc) db form).response.result.map
          ResultDict.chest_pain_type_str) = some "N/A") ∧
    (inp.st_slope ≠ 0 → inp.st_slope ≠ 1 → inp.st_slope ≠ 2 →
      ((encodeFeatures inp).drop 7).take 2 = [0, 0] ∧
      ((handlePredictPost (some m) (some sc) db form).response.result.map
          ResultDict.st_slope_str) = some "N/A") ∧
    (inp.thalassemia ≠ 1 → inp.thalassemia ≠ 2 → inp.thalassemia ≠ 3 →
      ((encodeFeatures inp).drop 9).take 2 = [0, 0] ∧
      ((handlePredictPost (some m) (some sc) db form).response.result.map
          ResultDict.thalassemia_str) = some "N/A") := by
  rw [handle_success m sc db form inp rows p hparse hm hp]
  refine ⟨rfl, rfl, rfl, rfl, fun h0 h1 h2 h3 => ⟨?_, ?_⟩,
    fun h0 h1 h2 => ⟨?_, ?_⟩, fun h0 h1 h2 => ⟨?_, ?_⟩⟩
  · show [f_cp_atypical inp.chest_pain_type, f_cp_non_anginal inp.chest_pain_type,
        f_cp_typical inp.chest_pain_type] = [0, 0, 0]
    unfold f_cp_atypical f_cp_non_anginal f_cp_typical
    split_ifs <;> first | omega | rfl
  · show some (cpStr inp.chest_pain_type) = some "N/A"
    unfold cpStr
    split_ifs <;> first | omega | rfl
  · show [f_slope_flat inp.st_slope, f_slope_upsloping inp.st_slope] = [0, 0]
    unfold f_slope_flat f_slope_upsloping
    split_ifs <;> first | omega | rfl
  · show some (slopeStr inp.st_slope) = some "N/A"
    unfold slopeStr
    split_ifs <;> first | omega | rfl
  · show [f_thal_normal inp.thalassemia, f_thal_reversible inp.thalassemia] = [0, 0]
    unfold f_thal_normal f_thal_reversible
    split_ifs <;> first | omega | rfl
  · show some (thalStr inp.thalassemia) = some "N/A"
    unfold thalStr
    split_ifs <;> first | omega | rfl

/-- Helper: a request handler emits no deserialization event, whatever
the state and form. -/
theorem handler_no_load_events (mo : Option PModel) (so : Option PScaler)
    (db : List PredictionRec) (form : Form) :
    ((handlePredictPost mo so db form).events.filter isLoad) = [] := by
  rcases mo with _ | m
  · rfl
  rcases so with _ | sc
  · rfl
  rcases hp : parseForm form with e | inp
  · simp [handlePredictPost, hp]
  · have hlen : (encodeFeatures inp).length = 13 := rfl
    rcases hm : m (sc (encodeFeatures inp)) with e2 | rows
    · simp [handlePredictPost, hp, hm, hlen, isLoad]
    · rcases hq : probAt01 rows with _ | q
      · simp [handlePredictPost, hp, hm, hq, hlen, isLoad]
      · simp [handlePredictPost, hp, hm, hq, hlen, isLoad]

/-- Helper: the request-processing fold adds no deserialization events
to the trace. -/
theorem runServer_load_trace (mo : Option PModel) (so : Option PScaler)
    (ev0 : List AppEvent) (db0 : List PredictionRec) (reqs : List Form) :
    ((reqs.foldl (serverStep mo so) (ev0, db0)).1.filter isLoad) =
      ev0.filter isLoad := by
  induction reqs generalizing ev0 db0 with
  | nil => rfl
  | cons r rs ih =>
      simp only [List.foldl_cons, serverStep]
      rw [ih]
      simp [List.filter_append, handler_no_load_events]

/-- C7: when both artifact files are present, startup deserializes the
model and the scaler exactly once, before any request; every request is
served with those loaded objects, and the event trace of a whole run
contains no deserialization besides the two startup loads, so no
request ever triggers a re-load from disk. -/
theorem artifacts_loaded_once (disk : DiskState) (reqs : List Form)
    (m : PModel) (sc : PScaler) (mo : Option PModel) (so : Option PScaler)
    (db : List PredictionRec) (form : Form)
    (hm : disk.model_file = some m) (hs : disk.scaler_file = some sc) :
    initApp disk = (some m, some sc, [AppEvent.loadModel, AppEvent.loadScaler]) ∧
    ((runServer disk reqs).1.filter isLoad) =
      [AppEvent.loadModel, AppEvent.loadScaler] ∧
    ((handlePredictPost mo so db form).events.filter isLoad) = [] := by
  have hinit : initApp disk =
      (some m, some sc, [AppEvent.loadModel, AppEvent.loadScaler]) := by
    unfold initApp
    rw [hm, hs]
  refine ⟨hinit, ?_, handler_no_load_events mo so db form⟩
  simp only [runServer, hinit]
  rw [runServer_load_trace]
  rfl

section ConcreteInstances

attribute [local semireducible] Rat.mul Rat.add Rat.sub Rat.inv

/-- Concrete scaler instance for witnesses: halves every feature. -/
def wScaler : PScaler := fun v => v.map (fun x => x / 2)

/-- Concrete classifier instance for witnesses: returns the probability
row [0.3, 0.7] for every sample. -/
def wModel : PModel := fun _ => Except.ok [[3 / 10, 7 / 10]]

/-- Concrete classifier instance whose inference call raises. -/
def wErrModel : PModel := fun _ => Except.error "boom"

/-- A complete, well-formed form submission. -/
def wGoodForm : Form :=
  ⟨[("patient_name", "Ada"), ("age", "57"), ("sex", "1"), ("chest_pain_type", "2"),
    ("max_heart_rate_achieved", "150"), ("exercise_induced_angina", "0"),
    ("st_depression", "1.4"), ("st_slope", "1"), ("num_major_vessels", "0"),
    ("thalassemia", "2")]⟩

/-- The parsed value of wGoodForm. -/
def wGoodInputs : RawInputs :=
  { patient_name := "Ada", age := 57, sex := 1, chest_pain_type := 2,
    max_heart_rate_achieved := 150, exercise_induced_angina := 0,
    st_depression := 7 / 5, st_slope := 1, num_major_vessels := 0, thalassemia := 2 }

/-- A submission missing every numeric field: parsing it raises on age. -/
def wBadForm : Form := ⟨[("patient_name", "Bo")]⟩

/-- A submission whose categorical codes are all outside the documented
sets and whose vessel count is negative. -/
def wOddForm : Form :=
  ⟨[("patient_name", "Cy"), ("age", "61"), ("sex", "0"), ("chest_pain_type", "7"),
    ("max_heart_rate_achieved", "140"), ("exercise_induced_angina", "1"),
    ("st_depression", "2.5"), ("st_slope", "5"), ("num_major_vessels", "-2"),
    ("thalassemia", "0")]⟩

/-- The parsed value of wOddForm. -/
def wOddInputs : RawInputs :=
  { patient_name := "Cy", age := 61, sex := 0, chest_pain_type := 7,
    max_heart_rate_achieved := 140, exercise_induced_angina := 1,
    st_depression := 5 / 2, st_slope := 5, num_major_vessels := -2, thalassemia := 0 }

/-- Witness for C2 at the concrete probability 1. -/
theorem riskScore_round_range_witness :
    riskScore 1 = pyRound ((1 : Rat) * 100) ∧
      0 ≤ riskScore 1 ∧ riskScore 1 ≤ 100 :=
  riskScore_round_range 1 zero_le_one le_rfl

/-- Witness for C4 at a concrete form, model and scaler. -/
theorem predict_scaled_single_inference_witness :
    ((handlePredictPost (some wModel) (some wScaler) [] wGoodForm).events.filter
        isModelCall) =
      [AppEvent.modelCall (wScaler (encodeFeatures wGoodInputs))] ∧
    (handlePredictPost (some wModel) (some wScaler) [] wGoodForm).events =
      [AppEvent.scalerCall (encodeFeatures wGoodInputs),
       AppEvent.modelCall (wScaler (encodeFeatures wGoodInputs)),
       AppEvent.dbInsert (mkRecord wGoodInputs (riskScore (7 / 10))
         (riskLevel (riskScore (7 / 10)))),
       AppEvent.dbCommit] ∧
    ((handlePredictPost (some wModel) (some wScaler) [] wGoodForm).response.result.map
        ResultDict.score) = some (riskScore (7 / 10)) :=
  predict_scaled_single_inference wModel wScaler [] wGoodForm wGoodInputs
    [[3 / 10, 7 / 10]] (7 / 10) rfl rfl rfl

/-- Witness for C5 at a concrete form, model and scaler. -/
theorem predict_commits_one_raw_record_witness :
    (handlePredictPost (some wModel) (some wScaler) [] wGoodForm).db =
      [] ++ [{ patient_name := wGoodInputs.patient_name, age := wGoodInputs.age,
               sex := wGoodInputs.sex,
               chest_pain_type := wGoodInputs.chest_pain_type,
               max_heart_rate_achieved := wGoodInputs.max_heart_rate_achieved,
               exercise_induced_angina := wGoodInputs.exercise_induced_angina,
               st_depression := wGoodInputs.st_depression,
               st_slope := wGoodInputs.st_slope,
               num_major_vessels := wGoodInputs.num_major_vessels,
               thalassemia := wGoodInputs.thalassemia,
               risk_score := riskScore (7 / 10),
               risk_level := riskLevel (riskScore (7 / 10)) }] ∧
    ((handlePredictPost (some wModel) (some wScaler) [] wGoodForm).events.filter
        isDbInsert).length = 1 ∧
    ((handlePredictPost (some wModel) (some wScaler) [] wGoodForm).events.filter
        isDbCommit).length = 1 :=
  predict_commits_one_raw_record wModel wScaler [] wGoodForm wGoodInputs
    [[3 / 10, 7 / 10]] (7 / 10) rfl rfl rfl

/-- Witness for C6 at a form missing its numeric fields and a model
whose inference raises. -/
theorem predict_catches_errors_witness :
    handlePredictPost (some wErrModel) (some wScaler) [] wBadForm =
      { response := errorPage ("An error occurred: " ++ "KeyError age"),
        db := [], events := [] } ∧
    handlePredictPost (some wErrModel) (some wScaler) [] wGoodForm =
      { response := errorPage ("An error occurred: " ++ "boom"),
        db := [],
        events := [AppEvent.scalerCall (encodeFeatures wGoodInputs),
                   AppEvent.modelCall (wScaler (encodeFeatures wGoodInputs))] } :=
  predict_catches_errors wErrModel wScaler [] wBadForm wGoodForm wGoodInputs
    "KeyError age" "boom" rfl rfl rfl

/-- Witness for C9 with the model global unset. -/
theorem predict_unloaded_guard_witness :
    handlePredictPost none (some wScaler) [] wGoodForm =
      { response := errorPage "Model or Scaler is not loaded. Cannot make predictions.",
        db := [], events := [] } :=
  predict_unloaded_guard none (some wScaler) [] wGoodForm (Or.inl rfl)

/-- Witness for C10 at the out-of-range submission wOddForm. -/
theorem predict_no_range_validation_witness :
    (handlePredictPost (some wModel) (some wScaler) [] wOddForm).db =
      [] ++ [mkRecord wOddInputs (riskScore (7 / 10))
        (riskLevel (riskScore (7 / 10)))] ∧
    (mkRecord wOddInputs (riskScore (7 / 10))
      (riskLevel (riskScore (7 / 10)))).chest_pain_type =
        wOddInputs.chest_pain_type ∧
    (mkRecord wOddInputs (riskScore (7 / 10))
      (riskLevel (riskScore (7 / 10)))).num_major_vessels =
        wOddInputs.num_major_vessels ∧
    ((handlePredictPost (some wModel) (some wScaler) [] wOddForm).response.result.map
        ResultDict.num_major_vessels) = some wOddInputs.num_major_vessels ∧
    (wOddInputs.chest_pain_type ≠ 0 → wOddInputs.chest_pain_type ≠ 1 →
     wOddInputs.chest_pain_type ≠ 2 → wOddInputs.chest_pain_type ≠ 3 →
      ((encodeFeatures wOddInputs).drop 4).take 3 = [0, 0, 0] ∧
      ((handlePredictPost (some wModel) (some wScaler) [] wOddForm).response.result.map
          ResultDict.chest_pain_type_str) = some "N/A") ∧
    (wOddInputs.st_slope ≠ 0 → wOddInputs.st_slope ≠ 1 → wOddInputs.st_slope ≠ 2 →
      ((encodeFeatures wOddInputs).drop 7).take 2 = [0, 0] ∧
      ((handlePredictPost (some wModel) (some wScaler) [] wOddForm).response.result.map
          ResultDict.st_slope_str) = some "N/A") ∧
    (wOddInputs.thalassemia ≠ 1 → wOddInputs.thalassemia ≠ 2 →
     wOddInputs.thalassemia ≠ 3 →
      ((encodeFeatures wOddInputs).drop 9).take 2 = [0, 0] ∧
      ((handlePredictPost (some wModel) (some wScaler) [] wOddForm).response.result.map
          ResultDict.thalassemia_str) = some "N/A") :=
  predict_no_range_validation wModel wScaler [] wOddForm wOddInputs
    [[3 / 10, 7 / 10]] (7 / 10) rfl rfl rfl

/-- Witness for C7 at a one-request run with both artifacts present. -/
theorem artifacts_loaded_once_witness :
    initApp { model_file := some wModel, scaler_file := some wScaler } =
      (some wModel, some wScaler, [AppEvent.loadModel, AppEvent.loadScaler]) ∧
    ((runServer { model_file := some wModel, scaler_file := some wScaler }
        [wGoodForm]).1.filter isLoad) =
      [AppEvent.loadModel, AppEvent.loadScaler] ∧
    ((handlePredictPost none none [] wBadForm).events.filter isLoad) = [] :=
  artifacts_loaded_once
    { model_file := some wModel, scaler_file := some wScaler }
    [wGoodForm] wModel wScaler none none [] wBadForm rfl rfl

end ConcreteInstances

end HeartPred
